import Mathlib

/-!
Verification of the client-side agent/chat layer of the AL-SHIFA dental
front end: the axios API gateway (`src/lib/api` — request interceptor,
`AgentAPI.sendMessage`, `AgentAPI.bookSlot`) and the patient chat widget
(`PatientChatWidget.tsx` — `handleSend` with its success and failure
paths). The TypeScript is shallowly embedded: request bodies become
association lists of JSON values, the widget's React state becomes an
explicit record, and `handleSend` is split at its `await` into a
synchronous start phase and a resolution phase (success or failure).
Timestamps (`Date.now()`) are passed in explicitly as naturals.
-/

namespace Dental

/-- A JSON value, as far as the request/response bodies of this client
need: null, strings, and objects (used opaquely for `context`/`slots`). -/
inductive JValue where
  | null
  | str (s : String)
  | obj (fields : List (String × JValue))

/-- Field lookup in a JSON-object body (first binding wins, as in a JS
object literal without duplicate keys). -/
def lookupField (k : String) : List (String × JValue) → Option JValue
  | [] => none
  | (k', v) :: rest => if k' = k then some v else lookupField k rest

/-- The `action` attached to a chat message (`Message.action` in
`PatientChatWidget.tsx`): a type tag, a label, and an opaque payload. -/
structure MsgAction where
  type : String
  label : String
  data : Option JValue

/-- A chat message (`interface Message` in `PatientChatWidget.tsx`). -/
structure Message where
  id : String
  role : String
  content : String
  action : Option MsgAction

/-- The agent endpoint's reply payload (`res.data` in `handleSend`):
`response_text`, `action_taken` and `slots` are each optional. -/
structure AgentReply where
  response_text : Option String
  action_taken : Option String
  slots : Option JValue

/-- The React state of `PatientChatWidget` that `handleSend` touches:
the message log, the input field, and the `loading` flag (the spec's
`pending`). -/
structure WidgetState where
  messages : List Message
  input : String
  loading : Bool

/-- The seeded welcome message (initial `useState` value of `messages`). -/
def welcomeMessage : Message :=
  { id := "welcome"
    role := "agent"
    content := "Hello! I am Dr. AI. How can I help you today? I can schedule appointments, check records, or answer basic questions."
    action := none }

/-- The widget's initial state: one welcome message, empty input, not
loading. -/
def initialState : WidgetState :=
  { messages := [welcomeMessage], input := "", loading := false }

/-- JavaScript `String.prototype.trim()` as `handleSend` uses it: strip
whitespace from both ends. Embedded structurally over the character
list so that concrete inputs evaluate inside the kernel. -/
def jsTrim (s : String) : String :=
  String.mk (((s.data.dropWhile Char.isWhitespace).reverse.dropWhile
    Char.isWhitespace).reverse)

/-- The JSON body `handleSend` posts to `/agent/execute`:
`\x7b user_query: userText, session_id: "patient-session-1" \x7d`. -/
def turnRequestBody (userText : String) : List (String × JValue) :=
  [("user_query", JValue.str userText),
   ("session_id", JValue.str "patient-session-1")]

/-- The synchronous phase of `handleSend`, up to the `await`: if
`input.trim()` is empty it returns at once (no state change, nothing
dispatched); otherwise it clears the input, appends the user message
with id `Date.now().toString()`, sets `loading`, and dispatches the
turn request body. The second component is the dispatched body, `none`
when nothing was sent. -/
def handleSendStart (now : Nat) (s : WidgetState) :
    WidgetState × Option (List (String × JValue)) :=
  if jsTrim s.input = "" then (s, none)
  else
    ({ messages := s.messages ++
        [{ id := toString now, role := "user", content := s.input, action := none }]
       input := ""
       loading := true },
     some (turnRequestBody s.input))

/-- Fallback content used when the reply's `response_text` is falsy. -/
def fallbackContent : String := "I processed that, but have no text response."

/-- Content of the agent message: `res.data.response_text || fallback`.
JavaScript `||` treats both a missing field and the empty string as
falsy. -/
def agentContent (rt : Option String) : String :=
  match rt with
  | some s => if s = "" then fallbackContent else s
  | none => fallbackContent

/-- Action of the agent message: populated exactly when
`res.data.action_taken === "booking_intent"`, carrying the reply's
`slots` as `data`. -/
def agentAction (reply : AgentReply) : Option MsgAction :=
  if reply.action_taken = some "booking_intent" then
    some { type := "booking_suggestion"
           label := "View Available Slots"
           data := reply.slots }
  else none

/-- The agent message built from a reply in `handleSend`, with id
`(Date.now() + 1).toString()` where `now` is the resolution time. -/
def agentMessage (now : Nat) (reply : AgentReply) : Message :=
  { id := toString (now + 1)
    role := "agent"
    content := agentContent reply.response_text
    action := agentAction reply }

/-- Resolution of `handleSend` when the transport call succeeds: append
the agent message and clear `loading` (the `finally` block). -/
def handleSendSuccess (now : Nat) (reply : AgentReply) (s : WidgetState) :
    WidgetState :=
  { s with messages := s.messages ++ [agentMessage now reply], loading := false }

/-- The fixed connectivity-apology content appended on the failure path. -/
def failureContent : String :=
  "⚠️ I'm having trouble connecting to the clinic server. Please try again later."

/-- The agent message appended by the `catch` block, with id
`Date.now().toString()` at resolution time. -/
def failureMessage (now : Nat) : Message :=
  { id := toString now, role := "agent", content := failureContent, action := none }

/-- Resolution of `handleSend` when the transport call rejects: the
`catch` block appends the fixed apology message (no action) and the
`finally` block clears `loading`. This is a total function into
`WidgetState` — the failure is swallowed, not re-thrown. -/
def handleSendFailure (now : Nat) (s : WidgetState) : WidgetState :=
  { s with messages := s.messages ++ [failureMessage now], loading := false }

/-- The events the widget's chat state reacts to: editing the input
field, invoking `handleSend`, and resolution of the in-flight request
(success with a reply, or transport failure). -/
inductive Event where
  | setInput (text : String)
  | sendStart (now : Nat)
  | resolveSuccess (now : Nat) (reply : AgentReply)
  | resolveFailure (now : Nat)

/-- One step of the widget: `setInput` is only possible while not
loading (the input element carries `disabled=\x7bloading\x7d`);
`sendStart` is always possible and self-guards on empty input;
resolution events only fire while a request is in flight
(`loading = true`). `none` means the event is disabled in this state. -/
def stepFn (s : WidgetState) : Event → Option WidgetState
  | Event.setInput text =>
      if s.loading then none else some { s with input := text }
  | Event.sendStart now => some (handleSendStart now s).1
  | Event.resolveSuccess now reply =>
      if s.loading then some (handleSendSuccess now reply s) else none
  | Event.resolveFailure now =>
      if s.loading then some (handleSendFailure now s) else none

/-- Reachable widget states: the initial state and everything a
sequence of enabled events can produce. -/
inductive Reachable : WidgetState → Prop where
  | init : Reachable initialState
  | step {s s' : WidgetState} {e : Event} :
      Reachable s → stepFn s e = some s' → Reachable s'

/-- An outgoing HTTP request configuration as the axios request
interceptor in `src/lib/api` sees it: a method, a url, and a header
map. -/
structure RequestConfig where
  method : String
  url : String
  headers : List (String × String)

/-- Set (or overwrite) one header, mirroring the JS assignment
`config.headers.Authorization = ...`. -/
def setHeader (k v : String) : List (String × String) → List (String × String)
  | [] => [(k, v)]
  | (k', v') :: rest =>
      if k' = k then (k, v) :: rest else (k', v') :: setHeader k v rest

/-- The request interceptor of the shared axios client: read the stored
token (`localStorage.getItem("token")`, `none` when absent) and, only
when it is truthy (present and non-empty), attach it as a bearer
authorization header; otherwise return the configuration unchanged.
A total function — a missing credential never raises. -/
def requestInterceptor (storedToken : Option String) (config : RequestConfig) :
    RequestConfig :=
  match storedToken with
  | none => config
  | some token =>
      if token = "" then config
      else { config with
             headers := setHeader "Authorization" ("Bearer " ++ token) config.headers }

/-- The JSON body built by `AgentAPI.sendMessage(query, context, role)`:
`user_query`, `role`, `context`, and `agent_type` explicitly set to
`null`. The TS defaults are `context = \x7b\x7d` and `role = "patient"`. -/
def sendMessageBody (query : String) (context : JValue) (role : String) :
    List (String × JValue) :=
  [("user_query", JValue.str query),
   ("role", JValue.str role),
   ("context", context),
   ("agent_type", JValue.null)]

/-- The JSON body built by `AgentAPI.bookSlot(slotId, patientId)`: a
fixed `agent_type`/`intent`/`user_query` and the two identifiers,
depending on nothing but its two arguments. -/
def bookSlotBody (slotId patientId : String) : List (String × JValue) :=
  [("agent_type", JValue.str "appointment"),
   ("intent", JValue.str "book"),
   ("slot_id", JValue.str slotId),
   ("patient_id", JValue.str patientId),
   ("user_query", JValue.str "Confirm booking")]

/-- Key widget invariant: while a request is in flight the input field
is empty — `handleSend` clears the input synchronously before setting
`loading`, and the disabled input cannot be edited until `loading`
clears. -/
theorem loading_input_empty {s : WidgetState} (h : Reachable s) :
    s.loading = true → s.input = "" := by
  induction h with
  | init => intro hl; simp [initialState] at hl
  | step hr hstep ih =>
      rename_i s s' e
      intro hl
      cases e with
      | setInput text =>
          simp only [stepFn] at hstep
          by_cases hld : s.loading
          · simp [hld] at hstep
          · simp [hld] at hstep
            subst hstep
            simp at hl
      | sendStart now =>
          simp only [stepFn, handleSendStart] at hstep
          by_cases he : jsTrim s.input = ""
          · simp [he] at hstep
            subst hstep
            exact ih hl
          · simp [he] at hstep
            subst hstep
            rfl
      | resolveSuccess now reply =>
          simp only [stepFn] at hstep
          by_cases hld : s.loading
          · simp [hld, handleSendSuccess] at hstep
            subst hstep
            simp at hl
          · simp [hld] at hstep
      | resolveFailure now =>
          simp only [stepFn] at hstep
          by_cases hld : s.loading
          · simp [hld, handleSendFailure] at hstep
            subst hstep
            simp at hl
          · simp [hld] at hstep

/-- A concrete reachable state with a request in flight: the user typed
"hi" and `handleSend` ran at time 100. -/
def pendingState : WidgetState :=
  (handleSendStart 100 { initialState with input := "hi" }).1

theorem reachable_pendingState : Reachable pendingState :=
  @Reachable.step { initialState with input := "hi" } pendingState
    (Event.sendStart 100)
    (@Reachable.step initialState { initialState with input := "hi" }
      (Event.setInput "hi") Reachable.init rfl) rfl

/-- C1: at every reachable session state with a request in flight
(`pending`/`loading` true), invoking the send operation leaves the state
— in particular the message log — unchanged and dispatches no agent
request: the send is a no-op. -/
theorem c1_send_while_pending_noop (s : WidgetState) (now : Nat)
    (h : Reachable s) (hp : s.loading = true) :
    handleSendStart now s = (s, none) := by
  have hin : s.input = "" := loading_input_empty h hp
  have he : jsTrim s.input = "" := by rw [hin]; decide
  unfold handleSendStart
  rw [if_pos he]

/-- Witness for C1 at the reachable in-flight state `pendingState`. -/
theorem c1_send_while_pending_noop_witness :
    handleSendStart 200 pendingState = (pendingState, none) :=
  c1_send_while_pending_noop pendingState 200 reachable_pendingState (by decide)

/-- C2: a successful turn — a send with non-blank input whose transport
call resolves with a reply — grows the log by exactly two messages, the
user message carrying the sent text followed by the agent message, in
that order, and leaves `pending`/`loading` false. -/
theorem c2_successful_turn_appends_two (s : WidgetState) (tSend tRes : Nat)
    (reply : AgentReply) (h : ¬ jsTrim s.input = "") :
    (handleSendSuccess tRes reply (handleSendStart tSend s).1).messages
      = s.messages ++
        [{ id := toString tSend, role := "user", content := s.input, action := none },
         agentMessage tRes reply]
    ∧ (agentMessage tRes reply).role = "agent"
    ∧ (handleSendSuccess tRes reply (handleSendStart tSend s).1).loading = false := by
  unfold handleSendStart handleSendSuccess agentMessage
  rw [if_neg h]
  simp

/-- The reply from the spec scenario: available slots with a booking
intent. -/
def bookingReply : AgentReply :=
  { response_text := some "Here are available slots"
    action_taken := some "booking_intent"
    slots := some (JValue.obj [("slots", JValue.str "T1")]) }

/-- Witness for C2: the spec scenario turn, sent at time 100 and
resolved at time 101. -/
theorem c2_successful_turn_appends_two_witness :
    (handleSendSuccess 101 bookingReply
        (handleSendStart 100
          { messages := [welcomeMessage], input := "book me a slot tomorrow",
            loading := false }).1).messages
      = [welcomeMessage] ++
        [{ id := toString 100, role := "user",
           content := "book me a slot tomorrow", action := none },
         agentMessage 101 bookingReply]
    ∧ (agentMessage 101 bookingReply).role = "agent"
    ∧ (handleSendSuccess 101 bookingReply
        (handleSendStart 100
          { messages := [welcomeMessage], input := "book me a slot tomorrow",
            loading := false }).1).loading = false :=
  c2_successful_turn_appends_two
    { messages := [welcomeMessage], input := "book me a slot tomorrow",
      loading := false } 100 101 bookingReply (by decide)

/-- C3: a failed turn — a send with non-blank input whose transport call
rejects — grows the log by exactly two messages, the user message
followed by the fixed connectivity-apology agent message carrying no
action, and leaves `pending`/`loading` false. The failure handler is a
total function into `WidgetState`: the rejection is absorbed, never
re-thrown to the caller of send. -/
theorem c3_failed_turn_appends_fallback (s : WidgetState) (tSend tRes : Nat)
    (h : ¬ jsTrim s.input = "") :
    (handleSendFailure tRes (handleSendStart tSend s).1).messages
      = s.messages ++
        [{ id := toString tSend, role := "user", content := s.input, action := none },
         { id := toString tRes, role := "agent",
           content := "⚠️ I'm having trouble connecting to the clinic server. Please try again later.",
           action := none }]
    ∧ (handleSendFailure tRes (handleSendStart tSend s).1).loading = false := by
  unfold handleSendStart handleSendFailure failureMessage failureContent
  rw [if_neg h]
  simp

/-- Witness for C3: a turn sent at time 100 that fails at time 105. -/
theorem c3_failed_turn_appends_fallback_witness :
    (handleSendFailure 105 (handleSendStart 100
        { messages := [welcomeMessage], input := "hello", loading := false }).1).messages
      = [welcomeMessage] ++
        [{ id := toString 100, role := "user", content := "hello", action := none },
         { id := toString 105, role := "agent",
           content := "⚠️ I'm having trouble connecting to the clinic server. Please try again later.",
           action := none }]
    ∧ (handleSendFailure 105 (handleSendStart 100
        { messages := [welcomeMessage], input := "hello", loading := false }).1).loading = false :=
  c3_failed_turn_appends_fallback
    { messages := [welcomeMessage], input := "hello", loading := false }
    100 105 (by decide)

/-- C4: whenever the reply's `response_text` field is absent, the agent
message appended for that reply has exactly the literal fallback
content, whatever the rest of the reply and whatever the timestamp —
every missing-field reply yields the identical content. -/
theorem c4_missing_response_text_fallback (now : Nat) (reply : AgentReply)
    (h : reply.response_text = none) :
    (agentMessage now reply).content = "I processed that, but have no text response." := by
  unfold agentMessage agentContent fallbackContent
  rw [h]

/-- Witness for C4 at a concrete reply with no `response_text`. -/
theorem c4_missing_response_text_fallback_witness :
    (agentMessage 7 { response_text := none, action_taken := none, slots := none }).content
      = "I processed that, but have no text response." :=
  c4_missing_response_text_fallback 7
    { response_text := none, action_taken := none, slots := none } rfl

/-- C10: a `response_text` that is present but equal to the empty string
is falsy to the JavaScript `||`, so the appended agent message carries
the fallback content, not the empty string. -/
theorem c10_empty_response_text_fallback (now : Nat) (reply : AgentReply)
    (h : reply.response_text = some "") :
    (agentMessage now reply).content = "I processed that, but have no text response." := by
  unfold agentMessage agentContent fallbackContent
  rw [h]
  simp

/-- Witness for C10 at a concrete reply with an empty `response_text`. -/
theorem c10_empty_response_text_fallback_witness :
    (agentMessage 7 { response_text := some "", action_taken := none, slots := none }).content
      = "I processed that, but have no text response." :=
  c10_empty_response_text_fallback 7
    { response_text := some "", action_taken := none, slots := none } rfl

/-- A reply whose `action_taken` is `booking_intent` but whose
`response_text` is the empty string. -/
def emptyTextBookingReply : AgentReply :=
  { response_text := some ""
    action_taken := some "booking_intent"
    slots := some (JValue.obj []) }

/-- Counterexample to C5 as stated: for this `booking_intent` reply the
appended agent message's content is the fallback placeholder, not the
reply's `response_text` (which is present and equal to `""`). -/
theorem c5_counterexample :
    emptyTextBookingReply.action_taken = some "booking_intent"
    ∧ emptyTextBookingReply.response_text = some ""
    ∧ (agentMessage 0 emptyTextBookingReply).content
        = "I processed that, but have no text response."
    ∧ ¬ (agentMessage 0 emptyTextBookingReply).content = "" := by
  refine ⟨rfl, rfl, rfl, ?_⟩
  decide

/-- C5 (amended): for every reply with `action_taken = "booking_intent"`
the appended agent message carries a `booking_suggestion` action whose
data is the reply's `slots`, and — provided `response_text` is present
and non-empty — its content is the reply's `response_text`; for every
reply whose `action_taken` is not the recognized `"booking_intent"`, the
appended agent message has no action. -/
theorem c5_booking_intent_action (now : Nat) (reply : AgentReply) :
    (reply.action_taken = some "booking_intent" →
      (agentMessage now reply).action
        = some { type := "booking_suggestion", label := "View Available Slots",
                 data := reply.slots }
      ∧ ∀ t, reply.response_text = some t → ¬ t = "" →
          (agentMessage now reply).content = t)
    ∧ (¬ reply.action_taken = some "booking_intent" →
        (agentMessage now reply).action = none) := by
  constructor
  · intro hb
    constructor
    · unfold agentMessage agentAction
      rw [if_pos hb]
    · intro t ht hne
      unfold agentMessage agentContent
      rw [ht]
      simp [hne]
  · intro hb
    unfold agentMessage agentAction
    rw [if_neg hb]

/-- Witness for C5 (amended) at the spec scenario reply, plus a reply
with an unrecognized `action_taken`. -/
theorem c5_booking_intent_action_witness :
    ((agentMessage 3 bookingReply).action
        = some { type := "booking_suggestion", label := "View Available Slots",
                 data := bookingReply.slots }
      ∧ (agentMessage 3 bookingReply).content = "Here are available slots")
    ∧ (agentMessage 3 { response_text := some "noted", action_taken := some "other",
                        slots := none }).action = none :=
  ⟨⟨((c5_booking_intent_action 3 bookingReply).1 rfl).1,
    ((c5_booking_intent_action 3 bookingReply).1 rfl).2
      "Here are available slots" rfl (by decide)⟩,
   (c5_booking_intent_action 3
      { response_text := some "noted", action_taken := some "other", slots := none }).2
      (by decide)⟩

/-- C6: `AgentAPI.bookSlot` builds its request body from its two
arguments alone — fixed `agent_type = "appointment"` and
`intent = "book"`, plus the given `slot_id` and `patient_id`; in
particular at `("S1", "P1")` the body carries exactly those values. -/
theorem c6_bookSlot_body_fields (slotId patientId : String) :
    lookupField "agent_type" (bookSlotBody slotId patientId)
      = some (JValue.str "appointment")
    ∧ lookupField "intent" (bookSlotBody slotId patientId) = some (JValue.str "book")
    ∧ lookupField "slot_id" (bookSlotBody slotId patientId) = some (JValue.str slotId)
    ∧ lookupField "patient_id" (bookSlotBody slotId patientId)
        = some (JValue.str patientId)
    ∧ lookupField "slot_id" (bookSlotBody "S1" "P1") = some (JValue.str "S1")
    ∧ lookupField "patient_id" (bookSlotBody "S1" "P1") = some (JValue.str "P1") :=
  ⟨rfl, rfl, rfl, rfl, rfl, rfl⟩

/-- C7: with no stored credential the request interceptor returns the
outgoing configuration unchanged — no authorization header is attached
— and, being a total function, it cannot fail locally. -/
theorem c7_no_credential_dispatch_unmodified (config : RequestConfig) :
    requestInterceptor none config = config := rfl

/-- Counterexample to C8 as stated: the chat widget's send dispatches
the body built by `turnRequestBody`, which carries only `user_query`
and `session_id` — it has no `agent_type` field at all (nor `role` or
`context`), so a conversational turn's request is not the
`{user_query, role, context, agent_type}` body of the facade's
`sendMessage`. -/
theorem c8_counterexample :
    (handleSendStart 100
        { messages := [welcomeMessage], input := "hello", loading := false }).2
      = some (turnRequestBody "hello")
    ∧ lookupField "agent_type" (turnRequestBody "hello") = none
    ∧ lookupField "role" (turnRequestBody "hello") = none
    ∧ lookupField "context" (turnRequestBody "hello") = none
    ∧ lookupField "user_query" (turnRequestBody "hello") = some (JValue.str "hello")
    ∧ lookupField "session_id" (turnRequestBody "hello")
        = some (JValue.str "patient-session-1") :=
  ⟨rfl, rfl, rfl, rfl, rfl, rfl⟩

/-- C8 (amended): the Agent facade's `sendMessage` does build the JSON
body `{user_query, role, context, agent_type}` with `agent_type`
explicitly present as `null`; the chat session, however, does not go
through the facade — its turn request body carries exactly `user_query`
and `session_id`. -/
theorem c8_sendMessage_explicit_null (query : String) (context : JValue)
    (role : String) (text : String) :
    lookupField "user_query" (sendMessageBody query context role)
      = some (JValue.str query)
    ∧ lookupField "role" (sendMessageBody query context role) = some (JValue.str role)
    ∧ lookupField "context" (sendMessageBody query context role) = some context
    ∧ lookupField "agent_type" (sendMessageBody query context role) = some JValue.null
    ∧ turnRequestBody text
        = [("user_query", JValue.str text),
           ("session_id", JValue.str "patient-session-1")]
    ∧ lookupField "agent_type" (turnRequestBody text) = none :=
  ⟨rfl, rfl, rfl, rfl, rfl, rfl⟩

/-- A reply with every optional field absent. -/
def emptyReply : AgentReply :=
  { response_text := none, action_taken := none, slots := none }

/-- Trace exhibiting the id collision for C9, with strictly increasing
event times: type "hi", send at time 100 (user id "100"), reply at time
101 (agent id "102" — `Date.now() + 1`), type "book", send at time 102
(user id "102"). -/
def c9s1 : WidgetState := { initialState with input := "hi" }

def c9s2 : WidgetState := (handleSendStart 100 c9s1).1

def c9s3 : WidgetState := handleSendSuccess 101 emptyReply c9s2

def c9s4 : WidgetState := { c9s3 with input := "book" }

def c9State : WidgetState := (handleSendStart 102 c9s4).1

theorem reachable_c9State : Reachable c9State :=
  @Reachable.step c9s4 c9State (Event.sendStart 102)
    (@Reachable.step c9s3 c9s4 (Event.setInput "book")
      (@Reachable.step c9s2 c9s3 (Event.resolveSuccess 101 emptyReply)
        (@Reachable.step c9s1 c9s2 (Event.sendStart 100)
          (@Reachable.step initialState c9s1 (Event.setInput "hi")
            Reachable.init rfl) rfl) rfl) rfl) rfl

/-- C9 fails on the code: message ids come from `Date.now()` (user and
failure messages) and `Date.now() + 1` (agent messages), so a reachable
trace with strictly increasing millisecond timestamps 100, 101, 102
produces two distinct messages with id "102" — the agent reply of turn
one and the user message of turn two. The ids of a session's log are
not pairwise distinct. -/
theorem c9_message_ids_collide :
    Reachable c9State
    ∧ c9State.messages.map Message.id = ["welcome", "100", "102", "102"]
    ∧ ¬ (c9State.messages.map Message.id).Nodup := by
  refine ⟨reachable_c9State, rfl, ?_⟩
  decide

end Dental
